import Mathlib

/-!
Shallow embedding of the sentor-sewamotor-be backend (Rust/axum/sqlx).

The database is modelled as explicit in-memory lists of rows; each HTTP
handler becomes a pure function from the request data and the current
database state to a result (an `Except` of a status code plus error
message, or the success payload) together with the new database state.
Machine integers (Rust `i32`/`i64`) are modelled as `Int`; UUIDs as the
natural number they encode (their 128-bit value), together with an
executable render/parse pair for the canonical hyphenated textual form
used by `uuid::Uuid`'s `Display` and accepted by `Uuid::parse_str`.
Timestamps are kept abstract as `Nat` values supplied as explicit
parameters where the source calls the clock (`Utc::now`, `NOW()`,
`CURRENT_DATE`); random ids (`Uuid::new_v4`) are likewise explicit
`fresh` parameters.
-/

/-- HTTP status codes used by the handlers (axum `StatusCode`). -/
inductive StatusCode where
  | ok
  | created
  | badRequest
  | unauthorized
  | notFound
  | conflict
  | internalServerError
  deriving DecidableEq, Repr

/-- Minimal JSON value model (`serde_json::Value`): objects are
association lists, numbers are integers (no claim depends on floats). -/
inductive Json where
  | null : Json
  | bool : Bool → Json
  | num : Int → Json
  | str : String → Json
  | arr : List Json → Json
  | obj : List (String × Json) → Json
  deriving Repr

/-- `serde_json::Value::get(key)`: first binding of the key in an object,
`none` for non-objects or absent keys. -/
def Json.get : Json → String → Option Json
  | .obj kvs, key =>
    match kvs.find? (fun kv => kv.1 = key) with
    | some kv => some kv.2
    | none => none
  | _, _ => none

/-- `serde_json::Value::as_str()`: the string if the value is a string. -/
def Json.asStr : Json → Option String
  | .str s => some s
  | _ => none

/-! ## UUID textual codec

`uuid::Uuid` renders as 32 lowercase hex digits grouped 8-4-4-4-12 with
hyphens; `Uuid::parse_str` parses that hyphenated canonical form.  A UUID
is modelled by its 128-bit value as a `Nat`. -/

/-- Lowercase hex digit for a nibble. -/
def toHexChar (n : Nat) : Char :=
  if n < 10 then Char.ofNat (48 + n) else Char.ofNat (87 + n)

/-- Value of a hex digit character (upper or lower case). -/
def fromHexChar (c : Char) : Option Nat :=
  if '0' ≤ c ∧ c ≤ '9' then some (c.toNat - 48)
  else if 'a' ≤ c ∧ c ≤ 'f' then some (c.toNat - 87)
  else if 'A' ≤ c ∧ c ≤ 'F' then some (c.toNat - 55)
  else none

/-- The `n` low nibbles of `v`, most significant first. -/
def toNibbles : Nat → Nat → List Nat
  | 0, _ => []
  | n + 1, v => toNibbles n (v / 16) ++ [v % 16]

/-- Canonical 8-4-4-4-12 hyphenated character rendering of a 128-bit value
(the `Display` of `uuid::Uuid`). -/
def uuidChars (u : Nat) : List Char :=
  (toNibbles 8 (u / 16 ^ 24)).map toHexChar ++ '-' ::
  ((toNibbles 4 (u / 16 ^ 20 % 16 ^ 4)).map toHexChar ++ '-' ::
  ((toNibbles 4 (u / 16 ^ 16 % 16 ^ 4)).map toHexChar ++ '-' ::
  ((toNibbles 4 (u / 16 ^ 12 % 16 ^ 4)).map toHexChar ++ '-' ::
  (toNibbles 12 (u % 16 ^ 12)).map toHexChar)))

/-- `Uuid::to_string()`. -/
def uuidToString (u : Nat) : String := String.mk (uuidChars u)

/-- Read exactly `n` hex digits, extending the accumulator, and return the
rest of the input. -/
def readHex : Nat → Nat → List Char → Option (Nat × List Char)
  | 0, acc, cs => some (acc, cs)
  | _ + 1, _, [] => none
  | n + 1, acc, c :: cs =>
    match fromHexChar c with
    | some d => readHex n (acc * 16 + d) cs
    | none => none

/-- Expect a hyphen. -/
def expectDash : List Char → Option (List Char)
  | '-' :: cs => some cs
  | _ => none

/-- `Uuid::parse_str` on the canonical hyphenated form: 8-4-4-4-12 hex
digits separated by hyphens, nothing trailing. -/
def uuidParseChars (cs : List Char) : Option Nat := do
  let (a, r1) ← readHex 8 0 cs
  let r2 ← expectDash r1
  let (b, r3) ← readHex 4 a r2
  let r4 ← expectDash r3
  let (c, r5) ← readHex 4 b r4
  let r6 ← expectDash r5
  let (d, r7) ← readHex 4 c r6
  let r8 ← expectDash r7
  let (e, r9) ← readHex 12 d r8
  if r9 = [] then some e else none

/-- `Uuid::parse_str` on a `String`. -/
def uuidParse (s : String) : Option Nat := uuidParseChars s.toList

theorem toNibbles_length (n v : Nat) : (toNibbles n v).length = n := by
  induction n generalizing v with
  | zero => rfl
  | succ n ih => simp [toNibbles, ih]

theorem toNibbles_lt (n v : Nat) : ∀ d ∈ toNibbles n v, d < 16 := by
  induction n generalizing v with
  | zero => simp [toNibbles]
  | succ n ih =>
    intro d hd
    simp only [toNibbles, List.mem_append, List.mem_singleton] at hd
    rcases hd with h | h
    · exact ih _ _ h
    · subst h; exact Nat.mod_lt _ (by norm_num)

theorem fromHexChar_toHexChar (d : Nat) (hd : d < 16) :
    fromHexChar (toHexChar d) = some d := by
  interval_cases d <;> decide

theorem readHex_map_toHexChar (ds : List Nat) (rest : List Char) (acc : Nat)
    (h : ∀ d ∈ ds, d < 16) :
    readHex ds.length acc (ds.map toHexChar ++ rest) =
      some (ds.foldl (fun a d => a * 16 + d) acc, rest) := by
  induction ds generalizing acc with
  | nil => rfl
  | cons d ds ih =>
    have hd : d < 16 := h d (List.mem_cons_self _ _)
    simp only [List.map_cons, List.length_cons, List.cons_append, readHex,
      fromHexChar_toHexChar d hd, List.foldl_cons]
    exact ih _ (fun x hx => h x (List.mem_cons_of_mem _ hx))

theorem foldl_toNibbles (n : Nat) (v acc : Nat) (hv : v < 16 ^ n) :
    (toNibbles n v).foldl (fun a d => a * 16 + d) acc = acc * 16 ^ n + v := by
  induction n generalizing v acc with
  | zero =>
    have hv0 : v = 0 := Nat.lt_one_iff.mp (by simpa using hv)
    subst hv0
    simp [toNibbles]
  | succ n ih =>
    have hdiv : v / 16 < 16 ^ n := by
      rw [Nat.div_lt_iff_lt_mul (by norm_num)]
      calc v < 16 ^ (n + 1) := hv
        _ = 16 ^ n * 16 := by ring
    simp only [toNibbles, List.foldl_append, List.foldl_cons, List.foldl_nil,
      ih (v / 16) acc hdiv]
    have h := Nat.div_add_mod v 16
    calc (acc * 16 ^ n + v / 16) * 16 + v % 16
        = acc * (16 ^ n * 16) + (16 * (v / 16) + v % 16) := by ring
      _ = acc * 16 ^ (n + 1) + v := by rw [h]; ring

/-- Reading one 8-4-4-4-12 group from its own rendering. -/
theorem readHex_group (n v acc : Nat) (rest : List Char) (hv : v < 16 ^ n) :
    readHex n acc ((toNibbles n v).map toHexChar ++ rest) =
      some (acc * 16 ^ n + v, rest) := by
  have h := readHex_map_toHexChar (toNibbles n v) rest acc (toNibbles_lt n v)
  rwa [toNibbles_length, foldl_toNibbles n v acc hv] at h

theorem expectDash_cons (cs : List Char) : expectDash ('-' :: cs) = some cs := rfl

/-- The nil-rest instance of `readHex_group`. -/
theorem readHex_group_nil (n v acc : Nat) (hv : v < 16 ^ n) :
    readHex n acc ((toNibbles n v).map toHexChar) = some (acc * 16 ^ n + v, []) := by
  have h := readHex_group n v acc [] hv
  rwa [List.append_nil] at h

theorem uuidParseChars_uuidChars (u : Nat) (hu : u < 2 ^ 128) :
    uuidParseChars (uuidChars u) = some u := by
  have hu' : u < 16 ^ 32 := by
    calc u < 2 ^ 128 := hu
      _ = 16 ^ 32 := by norm_num
  have hb1 : u / 16 ^ 24 < 16 ^ 8 := by
    rw [Nat.div_lt_iff_lt_mul (by positivity)]
    calc u < 16 ^ 32 := hu'
      _ = 16 ^ 8 * 16 ^ 24 := by norm_num
  have hb2 : u / 16 ^ 20 % 16 ^ 4 < 16 ^ 4 := Nat.mod_lt _ (by positivity)
  have hb3 : u / 16 ^ 16 % 16 ^ 4 < 16 ^ 4 := Nat.mod_lt _ (by positivity)
  have hb4 : u / 16 ^ 12 % 16 ^ 4 < 16 ^ 4 := Nat.mod_lt _ (by positivity)
  have hb5 : u % 16 ^ 12 < 16 ^ 12 := Nat.mod_lt _ (by positivity)
  have hdd : ∀ a b : Nat, u / 16 ^ a / 16 ^ b = u / 16 ^ (a + b) := by
    intro a b
    rw [Nat.div_div_eq_div_mul, ← pow_add]
  have hrec : ∀ x : Nat, x / 16 ^ 4 * 16 ^ 4 + x % 16 ^ 4 = x := by
    intro x
    rw [Nat.mul_comm]
    exact Nat.div_add_mod x (16 ^ 4)
  have e2 : u / 16 ^ 24 * 16 ^ 4 + u / 16 ^ 20 % 16 ^ 4 = u / 16 ^ 20 := by
    have h := hdd 20 4
    rw [show (20 + 4) = 24 from rfl] at h
    rw [← h]
    exact hrec (u / 16 ^ 20)
  have e3 : u / 16 ^ 20 * 16 ^ 4 + u / 16 ^ 16 % 16 ^ 4 = u / 16 ^ 16 := by
    have h := hdd 16 4
    rw [show (16 + 4) = 20 from rfl] at h
    rw [← h]
    exact hrec (u / 16 ^ 16)
  have e4 : u / 16 ^ 16 * 16 ^ 4 + u / 16 ^ 12 % 16 ^ 4 = u / 16 ^ 12 := by
    have h := hdd 12 4
    rw [show (12 + 4) = 16 from rfl] at h
    rw [← h]
    exact hrec (u / 16 ^ 12)
  have e5 : u / 16 ^ 12 * 16 ^ 12 + u % 16 ^ 12 = u := by
    rw [Nat.mul_comm]
    exact Nat.div_add_mod u (16 ^ 12)
  simp only [uuidParseChars, uuidChars]
  rw [readHex_group 8 (u / 16 ^ 24) 0 _ hb1]
  simp only [Option.bind_eq_bind, Option.some_bind, Nat.zero_mul, Nat.zero_add, expectDash_cons]
  rw [readHex_group 4 (u / 16 ^ 20 % 16 ^ 4) (u / 16 ^ 24) _ hb2]
  simp only [Option.bind_eq_bind, Option.some_bind, expectDash_cons]
  rw [e2, readHex_group 4 (u / 16 ^ 16 % 16 ^ 4) (u / 16 ^ 20) _ hb3]
  simp only [Option.bind_eq_bind, Option.some_bind, expectDash_cons]
  rw [e3, readHex_group 4 (u / 16 ^ 12 % 16 ^ 4) (u / 16 ^ 16) _ hb4]
  simp only [Option.bind_eq_bind, Option.some_bind, expectDash_cons]
  rw [e4, readHex_group_nil 12 (u % 16 ^ 12) (u / 16 ^ 12) hb5]
  simp only [Option.bind_eq_bind, Option.some_bind, e5]
  rfl

/-- The canonical rendering round-trips through the parser. -/
theorem uuidParse_uuidToString (u : Nat) (hu : u < 2 ^ 128) :
    uuidParse (uuidToString u) = some u := by
  have h : (uuidToString u).toList = uuidChars u := rfl
  rw [uuidParse, h]
  exact uuidParseChars_uuidChars u hu

/-! ## Prefix stripping (`str::starts_with` + slicing, `str::strip_prefix`) -/

/-- Remove the pattern from the front of the input, or fail
(Rust `strip_prefix`; also models `starts_with` + `&header[7..]`). -/
def stripPrefixCh : List Char → List Char → Option (List Char)
  | [], s => some s
  | _ :: _, [] => none
  | p :: ps, c :: cs => if c = p then stripPrefixCh ps cs else none

theorem stripPrefixCh_append (p s : List Char) :
    stripPrefixCh p (p ++ s) = some s := by
  induction p with
  | nil => rfl
  | cons c cs ih => simp [stripPrefixCh, ih]

/-! ## Data model

Rows of the `users`, `motors` and `orders` tables, as in
`src/model/user.rs`, `src/model/motor.rs`, `src/model/orders.rs` and the
SQL statements of the handlers. -/

/-- A row of the `users` table. -/
structure User where
  id : Nat
  full_name : String
  username : String
  email : String
  phone : String
  password_hash : String
  created_at : Option Nat
  deriving Repr, DecidableEq

/-- A row of the `motors` table (`model/motor.rs::Motor`). -/
structure Motor where
  motor_id : Int
  motor_slug : String
  motor_name : String
  motor_type : String
  price_per_day : Int
  description : Option String
  image_url : Option String
  available : Option Bool
  branch : Option String
  deriving Repr, DecidableEq

/-- A row of the `orders` table as touched by `routes/orders.rs`.
Dates are (year, month, day), times are (hour, minute); the
`tanggal_booking`/`waktu_booking` stamps produced by `CURRENT_DATE` /
`CURRENT_TIME` are kept abstract as `Nat`. -/
structure Order where
  id : Nat
  user_id : Nat
  tanggal_peminjaman : Nat × Nat × Nat
  jam_peminjaman : Nat × Nat
  alamat_pengantaran : String
  tanggal_pengembalian : Nat × Nat × Nat
  jam_pengembalian : Nat × Nat
  alamat_pengembalian : String
  pilih_cabang : String
  pilih_motor : String
  motor_price : String
  status : String
  tanggal_booking : Nat
  waktu_booking : Nat
  deriving Repr, DecidableEq

/-! ## Auth module (`routes/auth.rs`, shared token helper of
`routes/orders.rs` / `routes/profils.rs` / `routes/users.rs`) -/

/-- `get_user_from_token`: read the `Authorization` header, require the
`Bearer ` scheme, strip the fixed `dummy_token_for_` prefix, parse the
remainder as a UUID and require that user id to exist in storage.  Every
negative branch is `UNAUTHORIZED`. -/
def getUserFromToken (headers : Option String) (users : List User) :
    Except StatusCode Nat :=
  match headers with
  | none => .error .unauthorized
  | some header =>
    match stripPrefixCh "Bearer ".toList header.toList with
    | none => .error .unauthorized
    | some tokenCs =>
      match stripPrefixCh "dummy_token_for_".toList tokenCs with
      | none => .error .unauthorized
      | some idCs =>
        match uuidParseChars idCs with
        | none => .error .unauthorized
        | some uid =>
          if users.any (fun u => u.id = uid) then .ok uid
          else .error .unauthorized

/-- `login` response body. -/
structure TokenResponse where
  token : String
  deriving Repr, DecidableEq

/-- `login`: find a user whose username and stored (plaintext) password
both equal the submitted values; on success return the synthetic token
`"dummy_token_for_" ++ id`. -/
def login (users : List User) (username password : String) :
    Except (StatusCode × String) TokenResponse :=
  match users.find? (fun u => u.username = username ∧ u.password_hash = password) with
  | some u => .ok { token := "dummy_token_for_" ++ uuidToString u.id }
  | none => .error (.unauthorized, "Username atau password salah")

/-! ## Motor module (`routes/motor.rs`) -/

/-- Query parameters of `GET /api/motors` (`model/motor.rs::MotorQuery`). -/
structure MotorQuery where
  page : Option Int
  limit : Option Int
  motor_type : Option String
  available_only : Option Bool
  deriving Repr

/-- Body of `PUT /api/motors/:id` (`model/motor.rs::UpdateMotorRequest`). -/
structure UpdateMotorRequest where
  motor_slug : Option String
  motor_name : Option String
  motor_type : Option String
  price_per_day : Option Int
  description : Option String
  image_url : Option String
  available : Option Bool
  branch : Option String
  deriving Repr

/-- Response of `GET /api/motors` (`model/motor.rs::MotorListResponse`). -/
structure MotorListResponse where
  motors : List Motor
  total : Int
  page : Int
  limit : Int
  deriving Repr

/-- The WHERE predicate built by `list_motors`: `motor_type = $n` when
requested, AND `available = true` when `available_only` is set. -/
def motorMatches (params : MotorQuery) (m : Motor) : Bool :=
  (match params.motor_type with
   | some t => m.motor_type = t
   | none => true) &&
  (if params.available_only.getD false then m.available = some true else true)

/-- Insert into a list sorted by `motor_id`. -/
def insertByMotorId (m : Motor) : List Motor → List Motor
  | [] => [m]
  | x :: xs =>
    if m.motor_id ≤ x.motor_id then m :: x :: xs else x :: insertByMotorId m xs

/-- `ORDER BY motor_id ASC`: a stable sort of the filtered rows by their
numeric id (insertion sort, so that it evaluates on concrete tables). -/
def sortByMotorId : List Motor → List Motor
  | [] => []
  | x :: xs => insertByMotorId x (sortByMotorId xs)

/-- Two's-complement wrap of an unbounded integer into the `i32` range
[-2^31, 2^31): the release-build semantics of overflowing `i32`
arithmetic in Rust. -/
def wrapI32 (x : Int) : Int := (x + 2147483648) % 4294967296 - 2147483648

/-- The query offset of `list_motors`: `(page - 1) * limit` computed in
`i32`, so the product wraps for large (caller-supplied) pages. -/
def listMotorsOffset (page limit : Int) : Int := wrapI32 ((page - 1) * limit)

/-- `list_motors`: page defaults to 1 and is floored at 1; limit defaults
to 10, capped at 100, floored at 1; offset = (page-1)*limit in `i32`
arithmetic (wrapping on overflow, as a release build does); the count
query and the page query share the same predicate; rows come back
`ORDER BY motor_id ASC LIMIT $limit OFFSET $offset`.  A wrapped-negative
offset makes the database reject the query (`OFFSET must not be
negative`), which the handler maps to the generic storage error. -/
def listMotors (db : List Motor) (params : MotorQuery) :
    Except (StatusCode × String) MotorListResponse :=
  let page := max (params.page.getD 1) 1
  let limit := max (min (params.limit.getD 10) 100) 1
  let offset := listMotorsOffset page limit
  let filtered := db.filter (motorMatches params)
  let sorted := sortByMotorId filtered
  if offset < 0 then .error (.internalServerError, "Database error")
  else
    .ok { motors := (sorted.drop offset.toNat).take limit.toNat,
          total := (filtered.length : Int), page := page, limit := limit }

/-- `update_motor` builds one `query_parts` entry per supplied field; the
empty-update check is `query_parts.is_empty()`, i.e. no field supplied. -/
def hasUpdateFields (p : UpdateMotorRequest) : Bool :=
  p.motor_slug.isSome || p.motor_name.isSome || p.motor_type.isSome ||
  p.price_per_day.isSome || p.description.isSome || p.image_url.isSome ||
  p.available.isSome || p.branch.isSome

/-- Effect of the dynamic `UPDATE motors SET ...` on one row: exactly the
supplied fields are overwritten, the rest keep their stored values. -/
def applyMotorUpdate (p : UpdateMotorRequest) (m : Motor) : Motor :=
  { m with
    motor_slug := p.motor_slug.getD m.motor_slug,
    motor_name := p.motor_name.getD m.motor_name,
    motor_type := p.motor_type.getD m.motor_type,
    price_per_day := p.price_per_day.getD m.price_per_day,
    description := match p.description with | some d => some d | none => m.description,
    image_url := match p.image_url with | some i => some i | none => m.image_url,
    available := match p.available with | some a => some a | none => m.available,
    branch := match p.branch with | some b => some b | none => m.branch }

/-- `update_motor`: BadRequest when no field is supplied (no statement is
issued); otherwise run the dynamic UPDATE with RETURNING, NotFound when it
matches no row. -/
def updateMotor (db : List Motor) (id : Int) (p : UpdateMotorRequest) :
    Except (StatusCode × String) Motor × List Motor :=
  if hasUpdateFields p then
    match db.find? (fun m => m.motor_id = id) with
    | some m =>
      (.ok (applyMotorUpdate p m),
       db.map (fun x => if x.motor_id = id then applyMotorUpdate p x else x))
    | none => (.error (.notFound, "Motor not found"), db)
  else (.error (.badRequest, "No valid fields to update"), db)

/-- `delete_motor`: DELETE all rows with the id; NotFound exactly when
zero rows were affected. -/
def deleteMotor (db : List Motor) (id : Int) :
    Except (StatusCode × String) String × List Motor :=
  let affected := db.countP (fun m => m.motor_id = id)
  let db' := db.filter (fun m => ¬ m.motor_id = id)
  if affected = 0 then (.error (.notFound, "Motor not found"), db')
  else (.ok "Motor deleted successfully", db')

/-! ## Orders module (`routes/orders.rs`) -/

/-- Value of a decimal digit character. -/
def digitVal (c : Char) : Nat := c.toNat - 48

def isLeapYear (y : Nat) : Bool := y % 4 = 0 && (¬ y % 100 = 0 || y % 400 = 0)

def daysInMonth (y m : Nat) : Nat :=
  if m = 2 then (if isLeapYear y then 29 else 28)
  else if m = 4 ∨ m = 6 ∨ m = 9 ∨ m = 11 then 30
  else 31

/-- `chrono::NaiveDate::parse_from_str(_, "%Y-%m-%d")`: a calendar date
written as four year digits, two month digits, two day digits. -/
def parseDate (s : String) : Option (Nat × Nat × Nat) :=
  match s.toList with
  | [y1, y2, y3, y4, '-', m1, m2, '-', d1, d2] =>
    if y1.isDigit && y2.isDigit && y3.isDigit && y4.isDigit &&
       m1.isDigit && m2.isDigit && d1.isDigit && d2.isDigit then
      let y := ((digitVal y1 * 10 + digitVal y2) * 10 + digitVal y3) * 10 + digitVal y4
      let m := digitVal m1 * 10 + digitVal m2
      let d := digitVal d1 * 10 + digitVal d2
      if 1 ≤ m ∧ m ≤ 12 ∧ 1 ≤ d ∧ d ≤ daysInMonth y m then some (y, m, d)
      else none
    else none
  | _ => none

/-- `chrono::NaiveTime::parse_from_str(_, "%H:%M")`. -/
def parseTime (s : String) : Option (Nat × Nat) :=
  match s.toList with
  | [h1, h2, ':', n1, n2] =>
    if h1.isDigit && h2.isDigit && n1.isDigit && n2.isDigit then
      let h := digitVal h1 * 10 + digitVal h2
      let n := digitVal n1 * 10 + digitVal n2
      if h < 24 ∧ n < 60 then some (h, n) else none
    else none
  | _ => none

/-- `payload.get(key).and_then(|v| v.as_str())`: the field as a string,
`none` when the key is absent or its value is not a string. -/
def getStrField (payload : Json) (key : String) : Option String :=
  (payload.get key).bind Json.asStr

/-- The eight payload fields `create_booking` requires, in the order the
handler checks them. -/
def mandatoryFields : List String :=
  ["tanggalPeminjaman", "jamPeminjaman", "alamatPengantaran",
   "tanggalPengembalian", "jamPengembalian", "alamatPengembalian",
   "pilihCabang", "pilihMotor"]

/-- `create_booking`: authenticate, extract the eight mandatory string
fields (BadRequest naming the first missing one), default the optional
`bookingId`/`motorPrice`, parse the two dates then the two times, and
insert the order with status "pending" and the storage-stamped
booking date/time. -/
def createBooking (users : List User) (orders : List Order)
    (headers : Option String) (payload : Json)
    (orderId : Nat) (nowMillis : Int) (bookingDate bookingTime : Nat) :
    Except (StatusCode × String) (String × Nat) × List Order :=
  match getUserFromToken headers users with
  | .error s => (.error (s, "Authentication required"), orders)
  | .ok userId =>
  match getStrField payload "tanggalPeminjaman" with
  | none => (.error (.badRequest, "Missing tanggalPeminjaman"), orders)
  | some tanggalPeminjaman =>
  match getStrField payload "jamPeminjaman" with
  | none => (.error (.badRequest, "Missing jamPeminjaman"), orders)
  | some jamPeminjaman =>
  match getStrField payload "alamatPengantaran" with
  | none => (.error (.badRequest, "Missing alamatPengantaran"), orders)
  | some alamatPengantaran =>
  match getStrField payload "tanggalPengembalian" with
  | none => (.error (.badRequest, "Missing tanggalPengembalian"), orders)
  | some tanggalPengembalian =>
  match getStrField payload "jamPengembalian" with
  | none => (.error (.badRequest, "Missing jamPengembalian"), orders)
  | some jamPengembalian =>
  match getStrField payload "alamatPengembalian" with
  | none => (.error (.badRequest, "Missing alamatPengembalian"), orders)
  | some alamatPengembalian =>
  match getStrField payload "pilihCabang" with
  | none => (.error (.badRequest, "Missing pilihCabang"), orders)
  | some pilihCabang =>
  match getStrField payload "pilihMotor" with
  | none => (.error (.badRequest, "Missing pilihMotor"), orders)
  | some pilihMotor =>
  let bookingIdValue := "BWK" ++ toString (nowMillis % 1000000)
  let bookingId := (getStrField payload "bookingId").getD bookingIdValue
  let motorPrice := (getStrField payload "motorPrice").getD "Rp 50.000/hari"
  match parseDate tanggalPeminjaman with
  | none => (.error (.badRequest, "Invalid tanggalPeminjaman format"), orders)
  | some tanggalPeminjamanDate =>
  match parseDate tanggalPengembalian with
  | none => (.error (.badRequest, "Invalid tanggalPengembalian format"), orders)
  | some tanggalPengembalianDate =>
  match parseTime jamPeminjaman with
  | none => (.error (.badRequest, "Invalid jamPeminjaman format"), orders)
  | some jamPeminjamanTime =>
  match parseTime jamPengembalian with
  | none => (.error (.badRequest, "Invalid jamPengembalian format"), orders)
  | some jamPengembalianTime =>
  let order : Order :=
    { id := orderId, user_id := userId,
      tanggal_peminjaman := tanggalPeminjamanDate,
      jam_peminjaman := jamPeminjamanTime,
      alamat_pengantaran := alamatPengantaran,
      tanggal_pengembalian := tanggalPengembalianDate,
      jam_pengembalian := jamPengembalianTime,
      alamat_pengembalian := alamatPengembalian,
      pilih_cabang := pilihCabang, pilih_motor := pilihMotor,
      motor_price := motorPrice, status := "pending",
      tanggal_booking := bookingDate, waktu_booking := bookingTime }
  (.ok (bookingId, orderId), orders ++ [order])

/-- `get_booking`: BadRequest on an unparseable id, else the row or
NotFound. -/
def getBooking (orders : List Order) (bookingId : String) :
    Except (StatusCode × String) Order :=
  match uuidParse bookingId with
  | none => .error (.badRequest, "Invalid booking ID")
  | some oid =>
    match orders.find? (fun o => o.id = oid) with
    | some o => .ok o
    | none => .error (.notFound, "Booking not found")

/-- `update_booking`: BadRequest on an unparseable id before any
statement; status defaults to "pending" when the payload has no string
`status` field; NotFound exactly when zero rows are affected. -/
def updateBooking (orders : List Order) (bookingId : String) (payload : Json) :
    Except (StatusCode × String) String × List Order :=
  match uuidParse bookingId with
  | none => (.error (.badRequest, "Invalid booking ID"), orders)
  | some oid =>
    let status := (getStrField payload "status").getD "pending"
    let affected := orders.countP (fun o => o.id = oid)
    let orders' := orders.map (fun o => if o.id = oid then { o with status := status } else o)
    if affected > 0 then (.ok "Booking status updated successfully", orders')
    else (.error (.notFound, "Booking not found"), orders')

/-- `delete_booking`: BadRequest on an unparseable id before any
statement; NotFound exactly when zero rows are affected. -/
def deleteBooking (orders : List Order) (bookingId : String) :
    Except (StatusCode × String) String × List Order :=
  match uuidParse bookingId with
  | none => (.error (.badRequest, "Invalid booking ID"), orders)
  | some oid =>
    let affected := orders.countP (fun o => o.id = oid)
    let orders' := orders.filter (fun o => ¬ o.id = oid)
    if affected > 0 then (.ok "Booking deleted successfully", orders')
    else (.error (.notFound, "Booking not found"), orders')

/-! ## Profiles module (`routes/profils.rs`) -/

/-- Body of `POST /api/profils` (`model/profils.rs::CreateProfilRequest`). -/
structure CreateProfilRequest where
  user_id : Option Int
  nama : String
  email : String
  no_hp : String
  deriving Repr

/-- Body of `PUT /api/profils/:id` (`model/profils.rs::UpdateProfilRequest`). -/
structure UpdateProfilRequest where
  nama : Option String
  email : Option String
  no_hp : Option String
  deriving Repr

/-- `model/profils.rs::ProfilResponse`; timestamps are kept as `Nat`
rather than their chrono-formatted text. -/
structure ProfilResponse where
  id : String
  nama : String
  email : String
  no_hp : String
  username : Option String
  created_at : Nat
  updated_at : Nat
  deriving Repr, DecidableEq

/-- The response `create_profil` builds from a user row: both timestamps
are `created_at.unwrap_or(now)`. -/
def profilResponseOfUser (u : User) (now : Nat) : ProfilResponse :=
  { id := uuidToString u.id, nama := u.full_name, email := u.email,
    no_hp := u.phone, username := none,
    created_at := u.created_at.getD now, updated_at := u.created_at.getD now }

/-- `create_profil`'s auto-derived username:
`request.nama.to_lowercase().replace(" ", "")`. -/
def autoUsername (nama : String) : String :=
  String.mk ((nama.toList.map Char.toLower).filter (fun c => ¬ c = ' '))

/-- `create_profil`: pick the identity (the `user_id` priority check runs
the same token resolution with the same fresh-random fallback in both
branches), then update the existing user row or insert a new one with the
auto-derived username and the fixed default password. -/
def createProfil (db : List User) (headers : Option String)
    (request : CreateProfilRequest) (freshId : Nat) (now : Nat) :
    Except (StatusCode × String) ProfilResponse × List User :=
  let userId :=
    match request.user_id with
    | some _ =>
      match getUserFromToken headers db with
      | .ok uid => uid
      | .error _ => freshId
    | none =>
      match getUserFromToken headers db with
      | .ok uid => uid
      | .error _ => freshId
  match db.find? (fun u => u.id = userId) with
  | some u =>
    let upd : User :=
      { u with full_name := request.nama, email := request.email, phone := request.no_hp }
    (.ok (profilResponseOfUser upd now),
     db.map (fun v =>
       if v.id = userId then
         { v with full_name := request.nama, email := request.email, phone := request.no_hp }
       else v))
  | none =>
    let newUser : User :=
      { id := userId, full_name := request.nama, username := autoUsername request.nama,
        email := request.email, phone := request.no_hp,
        password_hash := "password123", created_at := some now }
    (.ok (profilResponseOfUser newUser now), db ++ [newUser])

/-- `update_profil`: authenticate, parse the id, fetch the current row
(NotFound when absent), merge — each missing field keeps the current
stored value — and write back only `full_name`/`email`/`phone`. -/
def updateProfil (db : List User) (headers : Option String) (idStr : String)
    (request : UpdateProfilRequest) (now : Nat) :
    Except (StatusCode × String) ProfilResponse × List User :=
  match getUserFromToken headers db with
  | .error s => (.error (s, "Authentication required"), db)
  | .ok _ =>
  match uuidParse idStr with
  | none => (.error (.badRequest, "Invalid ID format"), db)
  | some userId =>
  match db.find? (fun u => u.id = userId) with
  | none => (.error (.notFound, "User not found"), db)
  | some current =>
  let newName := request.nama.getD current.full_name
  let newEmail := request.email.getD current.email
  let newPhone := request.no_hp.getD current.phone
  let updated : User :=
    { current with full_name := newName, email := newEmail, phone := newPhone }
  (.ok { id := uuidToString updated.id, nama := updated.full_name,
         email := updated.email, no_hp := updated.phone, username := none,
         created_at := updated.created_at.getD now, updated_at := now },
   db.map (fun v =>
     if v.id = userId then
       { v with full_name := newName, email := newEmail, phone := newPhone }
     else v))

/-! ## Claim theorems -/

theorem toList_append (s t : String) : (s ++ t).toList = s.toList ++ t.toList := rfl

/-- C1: `get_user_from_token` returns Unauthorized in all three negative
cases — token lacking the fixed `dummy_token_for_` prefix, remainder that
does not parse as a UUID, and a parsed user id that does not exist in
storage — and the three outcomes are the very same Unauthorized value,
indistinguishable to the caller. -/
theorem getUserFromToken_unauthorized_cases (users : List User) (token : String) :
    (stripPrefixCh "dummy_token_for_".toList token.toList = none →
      getUserFromToken (some ("Bearer " ++ token)) users = .error .unauthorized) ∧
    (∀ rest, stripPrefixCh "dummy_token_for_".toList token.toList = some rest →
      uuidParseChars rest = none →
      getUserFromToken (some ("Bearer " ++ token)) users = .error .unauthorized) ∧
    (∀ rest uid, stripPrefixCh "dummy_token_for_".toList token.toList = some rest →
      uuidParseChars rest = some uid →
      (∀ u ∈ users, u.id ≠ uid) →
      getUserFromToken (some ("Bearer " ++ token)) users = .error .unauthorized) := by
  have hb : ("Bearer " ++ token).toList = "Bearer ".toList ++ token.toList := rfl
  refine ⟨?_, ?_, ?_⟩
  · intro hstrip
    simp only [getUserFromToken, hb, stripPrefixCh_append, hstrip]
  · intro rest hstrip hparse
    simp only [getUserFromToken, hb, stripPrefixCh_append, hstrip, hparse]
  · intro rest uid hstrip hparse habsent
    have hany : users.any (fun u => u.id = uid) = false := by
      rw [← Bool.not_eq_true, List.any_eq_true]
      rintro ⟨u, hu, hid⟩
      exact habsent u hu (by simpa using hid)
    simp only [getUserFromToken, hb, stripPrefixCh_append, hstrip, hparse, hany,
      Bool.false_eq_true, if_false]

/-- C1 witness: the three negative cases at concrete inputs. -/
theorem getUserFromToken_unauthorized_cases_witness :
    getUserFromToken (some ("Bearer " ++ "tok")) [] = .error .unauthorized ∧
    getUserFromToken (some ("Bearer " ++ "dummy_token_for_xyz")) [] = .error .unauthorized ∧
    getUserFromToken
      (some ("Bearer " ++ "dummy_token_for_00000000-0000-0000-0000-000000000009")) [] =
      .error .unauthorized :=
  ⟨(getUserFromToken_unauthorized_cases [] "tok").1 (by decide),
   (getUserFromToken_unauthorized_cases [] "dummy_token_for_xyz").2.1
     "xyz".toList (by decide) (by decide),
   (getUserFromToken_unauthorized_cases []
       "dummy_token_for_00000000-0000-0000-0000-000000000009").2.2
     "00000000-0000-0000-0000-000000000009".toList 9 (by decide) (by decide)
     (by simp)⟩

/-- C10: booking update and booking deletion with an id string that does
not parse as a UUID both return BadRequest "Invalid booking ID" before
any statement, leaving the stored orders unchanged. -/
theorem bookingOps_invalid_id_badRequest (orders : List Order) (bookingId : String)
    (payload : Json) (hbad : uuidParse bookingId = none) :
    updateBooking orders bookingId payload =
      (.error (.badRequest, "Invalid booking ID"), orders) ∧
    deleteBooking orders bookingId =
      (.error (.badRequest, "Invalid booking ID"), orders) := by
  constructor
  · simp only [updateBooking, hbad]
  · simp only [deleteBooking, hbad]

/-- C10 witness: a concrete non-UUID id. -/
theorem bookingOps_invalid_id_badRequest_witness :
    updateBooking [] "not-a-uuid" (Json.obj []) =
      (.error (.badRequest, "Invalid booking ID"), []) ∧
    deleteBooking [] "not-a-uuid" =
      (.error (.badRequest, "Invalid booking ID"), []) :=
  bookingOps_invalid_id_badRequest [] "not-a-uuid" (Json.obj []) (by decide)

/-- C6: for a valid existing booking id, an update whose payload has no
string `status` field stores status "pending", whatever it was before. -/
theorem updateBooking_status_defaults_pending (orders : List Order)
    (bookingId : String) (payload : Json) (oid : Nat)
    (hparse : uuidParse bookingId = some oid)
    (hexists : ∃ o ∈ orders, o.id = oid)
    (hstatus : getStrField payload "status" = none) :
    (updateBooking orders bookingId payload).1 =
      .ok "Booking status updated successfully" ∧
    ∀ o ∈ (updateBooking orders bookingId payload).2,
      o.id = oid → o.status = "pending" := by
  obtain ⟨w, hw, hwid⟩ := hexists
  have hpos : 0 < orders.countP (fun o => o.id = oid) := by
    rw [List.countP_pos_iff]
    exact ⟨w, hw, by simpa using hwid⟩
  simp only [updateBooking, hparse, hstatus, Option.getD_none]
  rw [if_pos hpos]
  refine ⟨rfl, ?_⟩
  intro o ho hid
  simp only [List.mem_map] at ho
  obtain ⟨x, hx, hxo⟩ := ho
  by_cases hxid : x.id = oid
  · rw [← hxo]
    simp [hxid]
  · rw [← hxo] at hid
    simp [hxid] at hid

/-- A sample order row for concrete instantiations. -/
def sampleOrder : Order :=
  { id := 3, user_id := 5,
    tanggal_peminjaman := (2025, 3, 10), jam_peminjaman := (9, 30),
    alamat_pengantaran := "Jl. A",
    tanggal_pengembalian := (2025, 3, 12), jam_pengembalian := (17, 0),
    alamat_pengembalian := "Jl. B",
    pilih_cabang := "Pusat", pilih_motor := "Honda Beat",
    motor_price := "Rp 50.000/hari", status := "confirmed",
    tanggal_booking := 0, waktu_booking := 0 }

/-- C6 witness: a concrete booking whose status was "confirmed" gets
reset to "pending" by an update with an empty payload. -/
theorem updateBooking_status_defaults_pending_witness :
    (updateBooking [sampleOrder] "00000000-0000-0000-0000-000000000003"
        (Json.obj [])).1 = .ok "Booking status updated successfully" ∧
    ∀ o ∈ (updateBooking [sampleOrder] "00000000-0000-0000-0000-000000000003"
        (Json.obj [])).2, o.id = 3 → o.status = "pending" :=
  updateBooking_status_defaults_pending [sampleOrder]
    "00000000-0000-0000-0000-000000000003" (Json.obj []) 3
    (by decide) ⟨sampleOrder, by simp, rfl⟩ (by decide)

/-- The second component of `delete_motor` is the table with every row
matching the id removed, in both branches. -/
theorem deleteMotor_snd (db : List Motor) (id : Int) :
    (deleteMotor db id).2 = db.filter (fun m => ¬ m.motor_id = id) := by
  simp only [deleteMotor]
  split <;> rfl

/-- C7: `delete_motor` returns NotFound exactly when zero rows match the
id; deleting an existing id succeeds once and returns NotFound the second
time. -/
theorem deleteMotor_notFound_iff_zero_rows (db : List Motor) (id : Int) :
    ((∀ m ∈ db, m.motor_id ≠ id) →
      (deleteMotor db id).1 = .error (.notFound, "Motor not found")) ∧
    ((∃ m ∈ db, m.motor_id = id) →
      (deleteMotor db id).1 = .ok "Motor deleted successfully" ∧
      (deleteMotor (deleteMotor db id).2 id).1 =
        .error (.notFound, "Motor not found")) := by
  constructor
  · intro habs
    have hz : db.countP (fun m => m.motor_id = id) = 0 := by
      rw [List.countP_eq_zero]
      intro m hm
      simpa using habs m hm
    simp [deleteMotor, hz]
  · rintro ⟨w, hw, hwid⟩
    have hnz : ¬ db.countP (fun m => m.motor_id = id) = 0 := by
      rw [List.countP_eq_zero]
      push_neg
      exact ⟨w, hw, by simpa using hwid⟩
    constructor
    · simp only [deleteMotor]
      rw [if_neg hnz]
    · set X := (deleteMotor db id).2 with hX
      have hz2 : X.countP (fun m => m.motor_id = id) = 0 := by
        rw [hX, deleteMotor_snd, List.countP_eq_zero]
        intro m hm
        simp only [List.mem_filter, decide_eq_true_eq] at hm
        simpa using hm.2
      simp only [deleteMotor]
      rw [if_pos hz2]

/-- A sample motor row for concrete instantiations. -/
def sampleMotor : Motor :=
  { motor_id := 1, motor_slug := "beat", motor_name := "Honda Beat",
    motor_type := "Matic", price_per_day := 50000, description := none,
    image_url := none, available := some true, branch := none }

/-- C7 witness: deleting a missing id is NotFound; deleting an existing
id twice succeeds then is NotFound. -/
theorem deleteMotor_notFound_iff_zero_rows_witness :
    (deleteMotor [sampleMotor] 2).1 = .error (.notFound, "Motor not found") ∧
    (deleteMotor [sampleMotor] 1).1 = .ok "Motor deleted successfully" ∧
    (deleteMotor (deleteMotor [sampleMotor] 1).2 1).1 =
      .error (.notFound, "Motor not found") :=
  ⟨(deleteMotor_notFound_iff_zero_rows [sampleMotor] 2).1 (by decide),
   ((deleteMotor_notFound_iff_zero_rows [sampleMotor] 1).2
     ⟨sampleMotor, by simp, rfl⟩).1,
   ((deleteMotor_notFound_iff_zero_rows [sampleMotor] 1).2
     ⟨sampleMotor, by simp, rfl⟩).2⟩

/-- `wrapI32` is the identity exactly on the representable `i32` range. -/
theorem wrapI32_eq_self (x : Int) (h0 : -2147483648 ≤ x) (h1 : x < 2147483648) :
    wrapI32 x = x := by
  unfold wrapI32
  omega

/-- C2 counterexample: at the reachable request page 42949674 with limit
100 (both clamp to themselves), the handler's i32 offset wraps to 4,
which is not (page-1)*limit — so the offset does not equal (page-1)*limit
for every motor-list request. -/
theorem listMotorsOffset_wraps :
    listMotorsOffset 42949674 100 = 4 ∧
    ¬ listMotorsOffset 42949674 100 = (42949674 - 1) * 100 := by decide

/-- C2 (amended): the effective page is the requested page defaulted to 1
and floored at 1; the effective limit is the requested limit defaulted to
10 and clamped to [1,100] (even for requested 0 or 1000); the query
offset is (page-1)*limit computed in i32 (wrapping) arithmetic, which
equals the mathematical (page-1)*limit exactly when that product fits in
i32; and every successful response's item list has length between 0 and
the effective limit. -/
theorem listMotors_pagination (db : List Motor) (params : MotorQuery) :
    ∀ r, listMotors db params = .ok r →
      r.page = max (params.page.getD 1) 1 ∧
      r.limit = max (min (params.limit.getD 10) 100) 1 ∧
      1 ≤ r.page ∧
      1 ≤ r.limit ∧
      r.limit ≤ 100 ∧
      (params.page = none → r.page = 1) ∧
      (params.limit = none → r.limit = 10) ∧
      (params.limit = some 0 → r.limit = 1) ∧
      (params.limit = some 1000 → r.limit = 100) ∧
      r.motors =
        ((sortByMotorId (db.filter (motorMatches params))).drop
          (listMotorsOffset r.page r.limit).toNat).take r.limit.toNat ∧
      ((r.page - 1) * r.limit < 2 ^ 31 →
        listMotorsOffset r.page r.limit = (r.page - 1) * r.limit) ∧
      r.motors.length ≤ r.limit.toNat := by
  intro r hr
  simp only [listMotors] at hr
  split at hr
  · exact absurd hr (by simp)
  · rw [Except.ok.injEq] at hr
    subst hr
    refine ⟨rfl, rfl, ?_, ?_, ?_, ?_, ?_, ?_, ?_, rfl, ?_, ?_⟩
    · show 1 ≤ max (params.page.getD 1) 1
      exact le_max_right _ _
    · show 1 ≤ max (min (params.limit.getD 10) 100) 1
      exact le_max_right _ _
    · show max (min (params.limit.getD 10) 100) 1 ≤ 100
      rcases le_or_lt (min (params.limit.getD 10) 100) 1 with h | h
      · rw [max_eq_right h]
        norm_num
      · rw [max_eq_left h.le]
        exact min_le_right _ _
    · intro h
      show max (params.page.getD 1) 1 = 1
      rw [h]
      decide
    · intro h
      show max (min (params.limit.getD 10) 100) 1 = 10
      rw [h]
      decide
    · intro h
      show max (min (params.limit.getD 10) 100) 1 = 1
      rw [h]
      decide
    · intro h
      show max (min (params.limit.getD 10) 100) 1 = 100
      rw [h]
      decide
    · intro hlt
      have hpage : (1 : Int) ≤ max (params.page.getD 1) 1 := le_max_right _ _
      have hlimit : (1 : Int) ≤ max (min (params.limit.getD 10) 100) 1 :=
        le_max_right _ _
      have h0 : 0 ≤ (max (params.page.getD 1) 1 - 1) *
          max (min (params.limit.getD 10) 100) 1 :=
        mul_nonneg (by omega) (by omega)
      have h31 : ((2 : Int) ^ 31) = 2147483648 := by norm_num
      rw [h31] at hlt
      exact wrapI32_eq_self _ (le_trans (by norm_num) h0) hlt
    · exact List.length_take_le _ _

/-- C2 witness: concrete successful responses showing the clamps at
requested page 0 / limit 0 and limit 1000, and the in-range offset. -/
theorem listMotors_pagination_witness :
    (∃ r, listMotors []
        { page := some 0, limit := some 0,
          motor_type := none, available_only := none } = .ok r ∧
      r.limit = 1 ∧ r.page = 1) ∧
    (∃ r, listMotors []
        { page := none, limit := some 1000,
          motor_type := none, available_only := none } = .ok r ∧
      r.limit = 100 ∧ r.page = 1 ∧
      listMotorsOffset r.page r.limit = (r.page - 1) * r.limit) := by
  constructor
  · have hok : listMotors []
        { page := some 0, limit := some 0,
          motor_type := none, available_only := none } =
        .ok { motors := [], total := 0, page := 1, limit := 1 } := rfl
    have h := listMotors_pagination []
      { page := some 0, limit := some 0, motor_type := none, available_only := none }
      { motors := [], total := 0, page := 1, limit := 1 } hok
    exact ⟨{ motors := [], total := 0, page := 1, limit := 1 }, hok,
      h.2.2.2.2.2.2.2.1 rfl, rfl⟩
  · have hok : listMotors []
        { page := none, limit := some 1000,
          motor_type := none, available_only := none } =
        .ok { motors := [], total := 0, page := 1, limit := 100 } := rfl
    have h := listMotors_pagination []
      { page := none, limit := some 1000, motor_type := none, available_only := none }
      { motors := [], total := 0, page := 1, limit := 100 } hok
    exact ⟨{ motors := [], total := 0, page := 1, limit := 100 }, hok,
      h.2.2.2.2.2.2.2.2.1 rfl, rfl,
      h.2.2.2.2.2.2.2.2.2.2.1 (by decide)⟩

/-- C5: a motor update with no supplied field is a BadRequest and leaves
the table untouched (no statement is issued); otherwise rows with a
different id are unchanged, the identified row gets exactly the supplied fields
overwritten, and every unsupplied field keeps its previous value (it is
not set to null). -/
theorem updateMotor_supplied_fields_only (db : List Motor) (id : Int) (p : UpdateMotorRequest) :
    (hasUpdateFields p = false →
      updateMotor db id p = (.error (.badRequest, "No valid fields to update"), db)) ∧
    (hasUpdateFields p = true →
      (∀ m ∈ db, m.motor_id ≠ id → m ∈ (updateMotor db id p).2) ∧
      (∀ m ∈ db, m.motor_id = id → applyMotorUpdate p m ∈ (updateMotor db id p).2)) ∧
    (∀ m : Motor,
      (applyMotorUpdate p m).motor_id = m.motor_id ∧
      (p.motor_slug = none → (applyMotorUpdate p m).motor_slug = m.motor_slug) ∧
      (p.motor_name = none → (applyMotorUpdate p m).motor_name = m.motor_name) ∧
      (p.motor_type = none → (applyMotorUpdate p m).motor_type = m.motor_type) ∧
      (p.price_per_day = none → (applyMotorUpdate p m).price_per_day = m.price_per_day) ∧
      (p.description = none → (applyMotorUpdate p m).description = m.description) ∧
      (p.image_url = none → (applyMotorUpdate p m).image_url = m.image_url) ∧
      (p.available = none → (applyMotorUpdate p m).available = m.available) ∧
      (p.branch = none → (applyMotorUpdate p m).branch = m.branch) ∧
      (∀ v, p.motor_slug = some v → (applyMotorUpdate p m).motor_slug = v) ∧
      (∀ v, p.motor_name = some v → (applyMotorUpdate p m).motor_name = v) ∧
      (∀ v, p.motor_type = some v → (applyMotorUpdate p m).motor_type = v) ∧
      (∀ v, p.price_per_day = some v → (applyMotorUpdate p m).price_per_day = v) ∧
      (∀ v, p.description = some v → (applyMotorUpdate p m).description = some v) ∧
      (∀ v, p.image_url = some v → (applyMotorUpdate p m).image_url = some v) ∧
      (∀ v, p.available = some v → (applyMotorUpdate p m).available = some v) ∧
      (∀ v, p.branch = some v → (applyMotorUpdate p m).branch = some v)) := by
  refine ⟨?_, ?_, ?_⟩
  · intro h
    simp [updateMotor, h]
  · intro h
    constructor
    · intro m hm hne
      cases hf : db.find? (fun x => x.motor_id = id) with
      | none =>
        simp only [updateMotor, h, if_true, hf]
        exact hm
      | some w =>
        simp only [updateMotor, h, if_true, hf]
        exact List.mem_map.mpr ⟨m, hm, by simp [hne]⟩
    · intro m hm hmid
      cases hf : db.find? (fun x => x.motor_id = id) with
      | none =>
        exfalso
        have := List.find?_eq_none.mp hf m hm
        simp [hmid] at this
      | some w =>
        simp only [updateMotor, h, if_true, hf]
        exact List.mem_map.mpr ⟨m, hm, by simp [hmid]⟩
  · intro m
    refine ⟨rfl, ?_, ?_, ?_, ?_, ?_, ?_, ?_, ?_, ?_, ?_, ?_, ?_, ?_, ?_, ?_, ?_⟩ <;>
      first
        | (intro h; simp [applyMotorUpdate, h])
        | (intro v h; simp [applyMotorUpdate, h])

/-- The empty and the name-only update requests used as concrete
instantiations. -/
def emptyMotorUpdate : UpdateMotorRequest :=
  { motor_slug := none, motor_name := none, motor_type := none,
    price_per_day := none, description := none, image_url := none,
    available := none, branch := none }

/-- A name-only update request. -/
def nameOnlyMotorUpdate : UpdateMotorRequest :=
  { motor_slug := none, motor_name := some "Honda Vario", motor_type := none,
    price_per_day := none, description := none, image_url := none,
    available := none, branch := none }

/-- C5 witness: an empty update is a BadRequest leaving the table as is;
an update supplying only the name changes the name and keeps the slug. -/
theorem updateMotor_supplied_fields_only_witness :
    updateMotor [sampleMotor] 1 emptyMotorUpdate =
      (.error (.badRequest, "No valid fields to update"), [sampleMotor]) ∧
    applyMotorUpdate nameOnlyMotorUpdate sampleMotor ∈
      (updateMotor [sampleMotor] 1 nameOnlyMotorUpdate).2 ∧
    (applyMotorUpdate nameOnlyMotorUpdate sampleMotor).motor_name = "Honda Vario" ∧
    (applyMotorUpdate nameOnlyMotorUpdate sampleMotor).motor_slug =
      sampleMotor.motor_slug :=
  ⟨(updateMotor_supplied_fields_only [sampleMotor] 1 emptyMotorUpdate).1 rfl,
   ((updateMotor_supplied_fields_only [sampleMotor] 1 nameOnlyMotorUpdate).2.1 rfl).2
     sampleMotor (by simp) rfl,
   ((updateMotor_supplied_fields_only [sampleMotor] 1
       nameOnlyMotorUpdate).2.2 sampleMotor).2.2.2.2.2.2.2.2.2.2.1 "Honda Vario" rfl,
   ((updateMotor_supplied_fields_only [sampleMotor] 1
       nameOnlyMotorUpdate).2.2 sampleMotor).2.1 rfl⟩

/-- C9: the `user_id` field of a profile-creation request never
influences the outcome — two requests that differ only in the presence or
value of `user_id` (same headers, same other fields, same storage, same
fresh random id, same clock) produce identical results and identical new
storage, because both branches of the priority check run the same token
resolution with the same fresh-random-id fallback. -/
theorem createProfil_ignores_user_id (db : List User) (headers : Option String)
    (r1 r2 : CreateProfilRequest) (freshId now : Nat)
    (hn : r1.nama = r2.nama) (he : r1.email = r2.email) (hp : r1.no_hp = r2.no_hp) :
    createProfil db headers r1 freshId now = createProfil db headers r2 freshId now := by
  obtain ⟨u1, n1, e1, p1⟩ := r1
  obtain ⟨u2, n2, e2, p2⟩ := r2
  simp only at hn he hp
  subst hn
  subst he
  subst hp
  cases u1 <;> cases u2 <;> rfl

/-- C9 witness: supplying `user_id := 7` versus omitting it gives the
same outcome on concrete inputs. -/
theorem createProfil_ignores_user_id_witness :
    createProfil [] none
      { user_id := some 7, nama := "Ana Bob", email := "a@b.c", no_hp := "0812" }
      42 100 =
    createProfil [] none
      { user_id := none, nama := "Ana Bob", email := "a@b.c", no_hp := "0812" }
      42 100 :=
  createProfil_ignores_user_id [] none
    { user_id := some 7, nama := "Ana Bob", email := "a@b.c", no_hp := "0812" }
    { user_id := none, nama := "Ana Bob", email := "a@b.c", no_hp := "0812" }
    42 100 rfl rfl rfl

/-- C8: profile update is fetch-then-merge-then-write — for an existing
user and an authenticated caller, every field missing from the payload
keeps its current stored value, and a supplied field is overwritten; in
particular an email-only update changes only the email. -/
theorem updateProfil_merge_preserves_missing (db : List User) (headers : Option String)
    (idStr : String) (request : UpdateProfilRequest) (now : Nat)
    (caller uid : Nat) (current : User)
    (hauth : getUserFromToken headers db = .ok caller)
    (hparse : uuidParse idStr = some uid)
    (hfind : db.find? (fun u => u.id = uid) = some current) :
    (updateProfil db headers idStr request now).1 =
      .ok { id := uuidToString current.id,
            nama := request.nama.getD current.full_name,
            email := request.email.getD current.email,
            no_hp := request.no_hp.getD current.phone,
            username := none,
            created_at := current.created_at.getD now, updated_at := now } ∧
    (∀ u ∈ db, u.id ≠ uid → u ∈ (updateProfil db headers idStr request now).2) ∧
    (∀ u ∈ (updateProfil db headers idStr request now).2, u.id = uid →
      (request.nama = none → u.full_name = current.full_name) ∧
      (request.email = none → u.email = current.email) ∧
      (request.no_hp = none → u.phone = current.phone) ∧
      (∀ v, request.nama = some v → u.full_name = v) ∧
      (∀ v, request.email = some v → u.email = v) ∧
      (∀ v, request.no_hp = some v → u.phone = v)) := by
  refine ⟨?_, ?_, ?_⟩
  · simp only [updateProfil, hauth, hparse, hfind]
  · intro u hu hne
    simp only [updateProfil, hauth, hparse, hfind]
    exact List.mem_map.mpr ⟨u, hu, by simp [hne]⟩
  · intro u hu hid
    simp only [updateProfil, hauth, hparse, hfind, List.mem_map] at hu
    obtain ⟨x, hx, hxu⟩ := hu
    by_cases hxid : x.id = uid
    · rw [← hxu]
      simp only [hxid, if_true, if_pos]
      refine ⟨?_, ?_, ?_, ?_, ?_, ?_⟩ <;>
        first
          | (intro h; simp [h])
          | (intro v h; simp [h])
    · rw [← hxu] at hid
      simp [hxid] at hid

/-- A sample user row for concrete instantiations. -/
def sampleUser : User :=
  { id := 5, full_name := "Ana Bob", username := "ana", email := "a@b.c",
    phone := "0812", password_hash := "pw", created_at := some 7 }

/-- C8 witness: an email-only update of a concrete stored user changes
only the email and keeps name and phone. -/
theorem updateProfil_merge_preserves_missing_witness :
    (updateProfil [sampleUser]
        (some "Bearer dummy_token_for_00000000-0000-0000-0000-000000000005")
        "00000000-0000-0000-0000-000000000005"
        { nama := none, email := some "new@x.y", no_hp := none } 200).1 =
      .ok { id := uuidToString 5, nama := "Ana Bob", email := "new@x.y",
            no_hp := "0812", username := none, created_at := 7,
            updated_at := 200 } := by
  have h := updateProfil_merge_preserves_missing [sampleUser]
      (some "Bearer dummy_token_for_00000000-0000-0000-0000-000000000005")
      "00000000-0000-0000-0000-000000000005"
      { nama := none, email := some "new@x.y", no_hp := none } 200 5 5 sampleUser
      rfl rfl rfl
  exact h.1

/-- C4: a successful login returns exactly the fixed prefix concatenated
with the found user's id rendered as text, and resolving that token back
through the shared identity helper (as a Bearer header) recovers the same
user id. -/
theorem login_token_roundtrip (users : List User) (username password : String)
    (tr : TokenResponse)
    (hwf : ∀ u ∈ users, u.id < 2 ^ 128)
    (hlogin : login users username password = .ok tr) :
    ∃ u ∈ users, u.username = username ∧ u.password_hash = password ∧
      tr.token = "dummy_token_for_" ++ uuidToString u.id ∧
      getUserFromToken (some ("Bearer " ++ tr.token)) users = .ok u.id := by
  cases hfind : users.find?
      (fun u => u.username = username ∧ u.password_hash = password) with
  | none =>
    simp only [login, hfind] at hlogin
    exact absurd hlogin (by simp)
  | some u =>
    simp only [login, hfind, Except.ok.injEq] at hlogin
    have htok : tr.token = "dummy_token_for_" ++ uuidToString u.id := by
      rw [← hlogin]
    have hmem : u ∈ users := List.mem_of_find?_eq_some hfind
    have hpred : u.username = username ∧ u.password_hash = password := by
      have h := List.find?_some hfind
      simpa using h
    refine ⟨u, hmem, hpred.1, hpred.2, htok, ?_⟩
    have h1 : ("Bearer " ++ tr.token).toList =
        "Bearer ".toList ++ ("dummy_token_for_".toList ++ uuidChars u.id) := by
      rw [htok]
      rfl
    have hany : users.any (fun x => x.id = u.id) = true :=
      List.any_eq_true.mpr ⟨u, hmem, by simp⟩
    simp only [getUserFromToken, h1, stripPrefixCh_append,
      uuidParseChars_uuidChars u.id (hwf u hmem), hany, if_true]

/-- C4 witness: a concrete user logs in and the returned token resolves
back to their id. -/
theorem login_token_roundtrip_witness :
    ∃ u ∈ [sampleUser], u.username = "ana" ∧ u.password_hash = "pw" ∧
      "dummy_token_for_00000000-0000-0000-0000-000000000005" =
        "dummy_token_for_" ++ uuidToString u.id ∧
      getUserFromToken
        (some ("Bearer " ++ "dummy_token_for_00000000-0000-0000-0000-000000000005"))
        [sampleUser] = .ok u.id :=
  login_token_roundtrip [sampleUser] "ana" "pw"
    { token := "dummy_token_for_00000000-0000-0000-0000-000000000005" }
    (by decide) rfl

/-- C3 counterexample: the handler checks eight mandatory payload fields,
not seven as the claim (and the spec sentence counting them) asserts. -/
theorem mandatoryFields_not_seven :
    mandatoryFields.length = 8 ∧ ¬ mandatoryFields.length = 7 := by decide

/-- C3 (amended: the set comprises eight mandatory fields): for an
authenticated caller, if one of the mandatory fields is absent or not a
string while all the fields checked before it are present, the handler
returns BadRequest naming that missing field and no booking is created. -/
theorem createBooking_missing_mandatory (users : List User) (orders : List Order)
    (headers : Option String) (payload : Json)
    (orderId : Nat) (nowMillis : Int) (bookingDate bookingTime : Nat) (uid : Nat)
    (hauth : getUserFromToken headers users = .ok uid)
    (i : Nat) (hi : i < mandatoryFields.length)
    (hbefore : ∀ j (hj : j < i), ∃ v,
      getStrField payload (mandatoryFields.get ⟨j, Nat.lt_trans hj hi⟩) = some v)
    (hmiss : getStrField payload (mandatoryFields.get ⟨i, hi⟩) = none) :
    mandatoryFields.length = 8 ∧
    createBooking users orders headers payload orderId nowMillis bookingDate bookingTime =
      (.error (.badRequest, "Missing " ++ mandatoryFields.get ⟨i, hi⟩), orders) := by
  refine ⟨rfl, ?_⟩
  have hi8 : i < 8 := hi
  interval_cases i
  · have hm : getStrField payload "tanggalPeminjaman" = none := hmiss
    simp only [createBooking, hauth, hm]
    rfl
  · obtain ⟨v0, h0⟩ := hbefore 0 (by omega)
    have h0' : getStrField payload "tanggalPeminjaman" = some v0 := h0
    have hm : getStrField payload "jamPeminjaman" = none := hmiss
    simp only [createBooking, hauth, h0', hm]
    rfl
  · obtain ⟨v0, h0⟩ := hbefore 0 (by omega)
    obtain ⟨v1, h1⟩ := hbefore 1 (by omega)
    have h0' : getStrField payload "tanggalPeminjaman" = some v0 := h0
    have h1' : getStrField payload "jamPeminjaman" = some v1 := h1
    have hm : getStrField payload "alamatPengantaran" = none := hmiss
    simp only [createBooking, hauth, h0', h1', hm]
    rfl
  · obtain ⟨v0, h0⟩ := hbefore 0 (by omega)
    obtain ⟨v1, h1⟩ := hbefore 1 (by omega)
    obtain ⟨v2, h2⟩ := hbefore 2 (by omega)
    have h0' : getStrField payload "tanggalPeminjaman" = some v0 := h0
    have h1' : getStrField payload "jamPeminjaman" = some v1 := h1
    have h2' : getStrField payload "alamatPengantaran" = some v2 := h2
    have hm : getStrField payload "tanggalPengembalian" = none := hmiss
    simp only [createBooking, hauth, h0', h1', h2', hm]
    rfl
  · obtain ⟨v0, h0⟩ := hbefore 0 (by omega)
    obtain ⟨v1, h1⟩ := hbefore 1 (by omega)
    obtain ⟨v2, h2⟩ := hbefore 2 (by omega)
    obtain ⟨v3, h3⟩ := hbefore 3 (by omega)
    have h0' : getStrField payload "tanggalPeminjaman" = some v0 := h0
    have h1' : getStrField payload "jamPeminjaman" = some v1 := h1
    have h2' : getStrField payload "alamatPengantaran" = some v2 := h2
    have h3' : getStrField payload "tanggalPengembalian" = some v3 := h3
    have hm : getStrField payload "jamPengembalian" = none := hmiss
    simp only [createBooking, hauth, h0', h1', h2', h3', hm]
    rfl
  · obtain ⟨v0, h0⟩ := hbefore 0 (by omega)
    obtain ⟨v1, h1⟩ := hbefore 1 (by omega)
    obtain ⟨v2, h2⟩ := hbefore 2 (by omega)
    obtain ⟨v3, h3⟩ := hbefore 3 (by omega)
    obtain ⟨v4, h4⟩ := hbefore 4 (by omega)
    have h0' : getStrField payload "tanggalPeminjaman" = some v0 := h0
    have h1' : getStrField payload "jamPeminjaman" = some v1 := h1
    have h2' : getStrField payload "alamatPengantaran" = some v2 := h2
    have h3' : getStrField payload "tanggalPengembalian" = some v3 := h3
    have h4' : getStrField payload "jamPengembalian" = some v4 := h4
    have hm : getStrField payload "alamatPengembalian" = none := hmiss
    simp only [createBooking, hauth, h0', h1', h2', h3', h4', hm]
    rfl
  · obtain ⟨v0, h0⟩ := hbefore 0 (by omega)
    obtain ⟨v1, h1⟩ := hbefore 1 (by omega)
    obtain ⟨v2, h2⟩ := hbefore 2 (by omega)
    obtain ⟨v3, h3⟩ := hbefore 3 (by omega)
    obtain ⟨v4, h4⟩ := hbefore 4 (by omega)
    obtain ⟨v5, h5⟩ := hbefore 5 (by omega)
    have h0' : getStrField payload "tanggalPeminjaman" = some v0 := h0
    have h1' : getStrField payload "jamPeminjaman" = some v1 := h1
    have h2' : getStrField payload "alamatPengantaran" = some v2 := h2
    have h3' : getStrField payload "tanggalPengembalian" = some v3 := h3
    have h4' : getStrField payload "jamPengembalian" = some v4 := h4
    have h5' : getStrField payload "alamatPengembalian" = some v5 := h5
    have hm : getStrField payload "pilihCabang" = none := hmiss
    simp only [createBooking, hauth, h0', h1', h2', h3', h4', h5', hm]
    rfl
  · obtain ⟨v0, h0⟩ := hbefore 0 (by omega)
    obtain ⟨v1, h1⟩ := hbefore 1 (by omega)
    obtain ⟨v2, h2⟩ := hbefore 2 (by omega)
    obtain ⟨v3, h3⟩ := hbefore 3 (by omega)
    obtain ⟨v4, h4⟩ := hbefore 4 (by omega)
    obtain ⟨v5, h5⟩ := hbefore 5 (by omega)
    obtain ⟨v6, h6⟩ := hbefore 6 (by omega)
    have h0' : getStrField payload "tanggalPeminjaman" = some v0 := h0
    have h1' : getStrField payload "jamPeminjaman" = some v1 := h1
    have h2' : getStrField payload "alamatPengantaran" = some v2 := h2
    have h3' : getStrField payload "tanggalPengembalian" = some v3 := h3
    have h4' : getStrField payload "jamPengembalian" = some v4 := h4
    have h5' : getStrField payload "alamatPengembalian" = some v5 := h5
    have h6' : getStrField payload "pilihCabang" = some v6 := h6
    have hm : getStrField payload "pilihMotor" = none := hmiss
    simp only [createBooking, hauth, h0', h1', h2', h3', h4', h5', h6', hm]
    rfl

/-- C3 witness: an authenticated request with the branch field
("pilihCabang") missing — and the six fields before it present — is a
BadRequest naming "pilihCabang", with no order inserted. -/
theorem createBooking_missing_mandatory_witness :
    mandatoryFields.length = 8 ∧
    createBooking [sampleUser] []
      (some "Bearer dummy_token_for_00000000-0000-0000-0000-000000000005")
      (Json.obj
        [("tanggalPeminjaman", Json.str "2025-03-10"),
         ("jamPeminjaman", Json.str "09:30"),
         ("alamatPengantaran", Json.str "Jl. A"),
         ("tanggalPengembalian", Json.str "2025-03-12"),
         ("jamPengembalian", Json.str "17:00"),
         ("alamatPengembalian", Json.str "Jl. B"),
         ("pilihMotor", Json.str "Honda Beat")])
      11 0 0 0 =
      (.error (.badRequest, "Missing " ++ mandatoryFields.get ⟨6, by decide⟩), []) := by
  have h := createBooking_missing_mandatory [sampleUser] []
      (some "Bearer dummy_token_for_00000000-0000-0000-0000-000000000005")
      (Json.obj
        [("tanggalPeminjaman", Json.str "2025-03-10"),
         ("jamPeminjaman", Json.str "09:30"),
         ("alamatPengantaran", Json.str "Jl. A"),
         ("tanggalPengembalian", Json.str "2025-03-12"),
         ("jamPengembalian", Json.str "17:00"),
         ("alamatPengembalian", Json.str "Jl. B"),
         ("pilihMotor", Json.str "Honda Beat")])
      11 0 0 0 5 rfl 6 (by decide)
      (by
        intro j hj
        interval_cases j
        · exact ⟨"2025-03-10", rfl⟩
        · exact ⟨"09:30", rfl⟩
        · exact ⟨"Jl. A", rfl⟩
        · exact ⟨"2025-03-12", rfl⟩
        · exact ⟨"17:00", rfl⟩
        · exact ⟨"Jl. B", rfl⟩)
      rfl
  exact h
